import Mathlib

/-!
Shallow embedding of the financial calculation engine of the
asset-manager backend (services/tax_policy_service.py,
services/basis_recapture_service.py, services/depreciation_calculation_service.py,
services/asset_depreciation_service.py, services/loan_service.py,
services/scenario_calculation_service.py).

Conventions of the embedding:
* Python floats are embedded as exact rationals (`ℚ`); Python ints as `ℤ`.
* Python exceptions that the modelled code can raise (ZeroDivisionError from
  an unguarded division) are made explicit with `Except PyErr`; a function
  that cannot raise returns a plain value.
* `datetime` values are embedded as a `Date` record (year, month, day);
  `datetime.strptime`-with-fallback patterns are embedded by passing the
  already-parsed date as an `Option Date` (`none` models an absent or
  malformed string, for which the code falls back to "now"); the ambient
  `datetime.now()` is passed explicitly as a `now : Date` parameter.
* `dateutil.relativedelta` month arithmetic (add months, clamp the day to
  the target month length) is embedded by `Date.addMonths`.
* Informational `notes` string lists attached to result dataclasses are
  omitted: no modelled computation reads them.
-/

namespace AssetMgr

/-- Python errors that the embedded code can raise.  `invalidParameter`
is the validation error demanded by the specification's error taxonomy;
the embedded repository code never produces it (it is present so that
statements about it can be written down). -/
inductive PyErr where
  | zeroDivisionError : PyErr
  | invalidParameter : PyErr
deriving DecidableEq, Repr

/-- Truncation toward zero, the embedding of Python `int(x)` on a float. -/
def pyTrunc (q : ℚ) : ℤ :=
  if 0 ≤ q then ⌊q⌋ else -⌊-q⌋

/-- Rounding of a rational to the nearest integer with ties to even,
the embedding of Python `round(x)` (banker's rounding, applied here to
the exact rational value). -/
def roundHalfEven (x : ℚ) : ℤ :=
  if Int.fract x < 1/2 then ⌊x⌋
  else if 1/2 < Int.fract x then ⌊x⌋ + 1
  else if ⌊x⌋ % 2 = 0 then ⌊x⌋ else ⌊x⌋ + 1

/-- Embedding of Python `round(x, 2)` (round to whole cents). -/
def pyRound2 (q : ℚ) : ℚ :=
  (roundHalfEven (q * 100) : ℚ) / 100

/-- Calendar date, the embedding of `datetime` at day granularity. -/
structure Date where
  year : ℤ
  month : ℤ
  day : ℤ
deriving DecidableEq, Repr

/-- Proleptic-Gregorian leap-year test. -/
def isLeap (y : ℤ) : Prop :=
  (y % 4 = 0 ∧ ¬ y % 100 = 0) ∨ y % 400 = 0

instance (y : ℤ) : Decidable (isLeap y) := by
  unfold isLeap; infer_instance

/-- Number of days in a month of the proleptic Gregorian calendar. -/
def daysInMonth (y m : ℤ) : ℤ :=
  if m = 2 then (if isLeap y then 29 else 28)
  else if m = 4 ∨ m = 6 ∨ m = 9 ∨ m = 11 then 30
  else 31

/-- Well-formedness of a `Date` (what `datetime` guarantees). -/
def Date.Valid (d : Date) : Prop :=
  1 ≤ d.month ∧ d.month ≤ 12 ∧ 1 ≤ d.day ∧ d.day ≤ daysInMonth d.year d.month

instance (d : Date) : Decidable d.Valid := by
  unfold Date.Valid; infer_instance

/-- Embedding of `dateutil.relativedelta(months = n)` addition: shift the
(year, month) pair by `n` months and clamp the day to the length of the
target month. -/
def Date.addMonths (d : Date) (n : ℤ) : Date :=
  let t : ℤ := d.year * 12 + (d.month - 1) + n
  let y : ℤ := t / 12
  let m : ℤ := t % 12 + 1
  { year := y, month := m, day := min d.day (daysInMonth y m) }

/-- Lexicographic comparison of dates, the embedding of `datetime` order. -/
def Date.le (a b : Date) : Prop :=
  a.year < b.year ∨
    (a.year = b.year ∧ (a.month < b.month ∨ (a.month = b.month ∧ a.day ≤ b.day)))

instance (a b : Date) : Decidable (Date.le a b) := by
  unfold Date.le; infer_instance

/-- Days since the civil epoch (Rata Die style), used to embed
subtraction of two `datetime` values (`(a - b).days`). -/
def Date.toOrdinal (d : Date) : ℤ :=
  let y : ℤ := if d.month ≤ 2 then d.year - 1 else d.year
  let era : ℤ := y / 400
  let yoe : ℤ := y - era * 400
  let mp : ℤ := (d.month + 9) % 12
  let doy : ℤ := (153 * mp + 2) / 5 + d.day - 1
  let doe : ℤ := yoe * 365 + yoe / 4 - yoe / 100 + doy
  era * 146097 + doe - 719468

/-- Embedding of `(a - b).days` for two midnight datetimes. -/
def dateDiffDays (a b : Date) : ℤ :=
  a.toOrdinal - b.toOrdinal

/-! ## TaxPolicyService (services/tax_policy_service.py) -/

/-- Federal bracket: upper limit (`none` embeds `float('inf')`) and rate. -/
structure Bracket where
  limit : Option ℚ
  rate : ℚ
deriving DecidableEq, Repr

/-- Federal tax policy for a given year (dataclass `TaxPolicy`);
the audit-trail string metadata is omitted. -/
structure TaxPolicy where
  effective_year : ℤ
  section_179_limit : ℤ
  section_179_phaseout_threshold : ℤ
  bonus_depreciation_percent : ℤ
  macrs_5_year_schedule : List ℚ
  macrs_7_year_schedule : List ℚ
  federal_brackets : List Bracket
deriving DecidableEq, Repr

/-- Hardcoded 2024 policy from `TaxPolicyService.__init__`. -/
def policy2024 : TaxPolicy :=
  { effective_year := 2024
    section_179_limit := 1220000
    section_179_phaseout_threshold := 3050000
    bonus_depreciation_percent := 60
    macrs_5_year_schedule := [20, 32, 192/10, 1152/100, 1152/100, 576/100]
    macrs_7_year_schedule := [1429/100, 2449/100, 1749/100, 1249/100, 893/100, 892/100, 893/100, 446/100]
    federal_brackets :=
      [⟨some 11600, 1/10⟩, ⟨some 47150, 12/100⟩, ⟨some 100525, 22/100⟩,
       ⟨some 191950, 24/100⟩, ⟨some 243725, 32/100⟩, ⟨some 609350, 35/100⟩,
       ⟨none, 37/100⟩] }

/-- Hardcoded 2025 policy from `TaxPolicyService.__init__`. -/
def policy2025 : TaxPolicy :=
  { effective_year := 2025
    section_179_limit := 1250000
    section_179_phaseout_threshold := 3130000
    bonus_depreciation_percent := 40
    macrs_5_year_schedule := [20, 32, 192/10, 1152/100, 1152/100, 576/100]
    macrs_7_year_schedule := [1429/100, 2449/100, 1749/100, 1249/100, 893/100, 892/100, 893/100, 446/100]
    federal_brackets :=
      [⟨some 11925, 1/10⟩, ⟨some 48475, 12/100⟩, ⟨some 103350, 22/100⟩,
       ⟨some 197300, 24/100⟩, ⟨some 250525, 32/100⟩, ⟨some 626350, 35/100⟩,
       ⟨none, 37/100⟩] }

/-- Embedding of `TaxPolicyService.get_policy_for_year`: the policy dict has
exactly the keys 2024 and 2025, and an unknown year falls back to the
maximum known year (2025). -/
def get_policy_for_year (year : ℤ) : TaxPolicy :=
  if year = 2024 then policy2024
  else if year = 2025 then policy2025
  else policy2025

/-- Embedding of `TaxPolicyService.get_policy_for_date`. -/
def get_policy_for_date (d : Date) : TaxPolicy :=
  get_policy_for_year d.year

/-- Embedding of `TaxPolicyService.calculate_section_179_limit_with_phaseout`.
Note that the code truncates the phaseout excess (`int(phaseout_amount)`)
before subtracting it from the limit. -/
def calculate_section_179_limit_with_phaseout (total_equipment_purchases : ℚ) (year : ℤ) : ℤ :=
  let policy := get_policy_for_year year
  if total_equipment_purchases ≤ (policy.section_179_phaseout_threshold : ℚ) then
    policy.section_179_limit
  else
    let phaseout_amount := total_equipment_purchases - (policy.section_179_phaseout_threshold : ℚ)
    let reduced_limit := policy.section_179_limit - pyTrunc phaseout_amount
    max 0 reduced_limit

/-- Definition following the words of the specification claim C3 ("returns
max(0, limit − (total_purchases − phaseout_threshold)), truncated to an
integer currency amount"): truncation applied to the already-subtracted
value.  Kept separate so it can be compared against the code. -/
def claimC3PhaseoutFormula (total_purchases : ℚ) (year : ℤ) : ℤ :=
  let policy := get_policy_for_year year
  pyTrunc (max 0 ((policy.section_179_limit : ℚ)
    - (total_purchases - (policy.section_179_phaseout_threshold : ℚ))))

/-- Embedding of `TaxPolicyService.get_macrs_first_year_rate`. -/
def get_macrs_first_year_rate (useful_life : ℤ) (year : ℤ) : ℚ :=
  let policy := get_policy_for_year year
  if useful_life = 5 then policy.macrs_5_year_schedule.headD 0 / 100
  else if useful_life = 7 then policy.macrs_7_year_schedule.headD 0 / 100
  else policy.macrs_5_year_schedule.headD 0 / 100

/-! ## BasisRecaptureService (services/basis_recapture_service.py) -/

/-- Result dataclass `SaleCalculation` (notes omitted). -/
structure SaleCalculation where
  asset_name : String
  sale_price : ℚ
  original_cost : ℚ
  accumulated_depreciation : ℚ
  adjusted_basis : ℚ
  total_gain : ℚ
  section_1245_recapture : ℚ
  section_1231_gain : ℚ
  gross_proceeds : ℚ
  transaction_fees : ℚ
  net_proceeds_before_tax : ℚ
  tax_on_recapture : ℚ
  tax_on_capital_gain : ℚ
  net_proceeds_after_tax : ℚ
  sale_date : Option Date
deriving DecidableEq, Repr

/-- Embedding of `BasisRecaptureService.calculate_sale_tax_impact`. -/
def calculate_sale_tax_impact (asset_name : String) (original_cost : ℚ)
    (accumulated_depreciation : ℚ) (sale_price : ℚ) (transaction_fees : ℚ)
    (ordinary_tax_rate : ℚ) (capital_gains_rate : ℚ) (sale_date : Option Date) :
    SaleCalculation :=
  let adjusted_basis := original_cost - accumulated_depreciation
  let total_gain := sale_price - adjusted_basis
  let section_1245_recapture := min (max 0 total_gain) accumulated_depreciation
  let section_1231_gain := max 0 (total_gain - section_1245_recapture)
  let tax_on_recapture := section_1245_recapture * ordinary_tax_rate
  let tax_on_capital_gain := section_1231_gain * capital_gains_rate
  let total_tax := tax_on_recapture + tax_on_capital_gain
  let gross_proceeds := sale_price
  let net_proceeds_before_tax := gross_proceeds - transaction_fees
  let net_proceeds_after_tax := net_proceeds_before_tax - total_tax
  { asset_name := asset_name
    sale_price := sale_price
    original_cost := original_cost
    accumulated_depreciation := accumulated_depreciation
    adjusted_basis := adjusted_basis
    total_gain := total_gain
    section_1245_recapture := section_1245_recapture
    section_1231_gain := section_1231_gain
    gross_proceeds := gross_proceeds
    transaction_fees := transaction_fees
    net_proceeds_before_tax := net_proceeds_before_tax
    tax_on_recapture := tax_on_recapture
    tax_on_capital_gain := tax_on_capital_gain
    net_proceeds_after_tax := net_proceeds_after_tax
    sale_date := sale_date }

/-! ## DepreciationCalculationService (services/depreciation_calculation_service.py) -/

/-- Result dataclass `DepreciationCalculation` (notes omitted). -/
structure DepreciationCalculation where
  asset_name : String
  cost : ℚ
  business_use_percent : ℚ
  depreciable_basis : ℚ
  bonus_depreciation : ℚ
  section_179_deduction : ℚ
  macrs_first_year : ℚ
  total_first_year_deduction : ℚ
  remaining_basis : ℚ
  method_used : String
  in_service_date : Option Date
deriving DecidableEq, Repr

/-- Embedding of `DepreciationCalculationService.calculate_bonus_depreciation`.
The function performs no input validation. -/
def calculate_bonus_depreciation (asset_name : String) (cost : ℚ)
    (business_use_percent : ℚ) (in_service_date : Date)
    (override_bonus_percent : Option ℤ) : DepreciationCalculation :=
  let policy := get_policy_for_date in_service_date
  let bonus_percent : ℤ :=
    match override_bonus_percent with
    | some p => p
    | none => policy.bonus_depreciation_percent
  let depreciable_basis := cost * (business_use_percent / 100)
  let bonus_amount := depreciable_basis * ((bonus_percent : ℚ) / 100)
  let remaining_basis := depreciable_basis - bonus_amount
  { asset_name := asset_name
    cost := cost
    business_use_percent := business_use_percent
    depreciable_basis := depreciable_basis
    bonus_depreciation := bonus_amount
    section_179_deduction := 0
    macrs_first_year := 0
    total_first_year_deduction := bonus_amount
    remaining_basis := remaining_basis
    method_used := "BONUS"
    in_service_date := some in_service_date }

/-- Embedding of `DepreciationCalculationService.calculate_section_179`.
The function performs no input validation. -/
def calculate_section_179 (asset_name : String) (cost : ℚ)
    (business_use_percent : ℚ) (in_service_date : Date)
    (section_179_available : ℚ) (business_income_limit : Option ℚ) :
    DepreciationCalculation :=
  let depreciable_basis := cost * (business_use_percent / 100)
  let amount0 := min depreciable_basis section_179_available
  let section_179_amount :=
    match business_income_limit with
    | some l => min amount0 l
    | none => amount0
  let remaining_basis := depreciable_basis - section_179_amount
  { asset_name := asset_name
    cost := cost
    business_use_percent := business_use_percent
    depreciable_basis := depreciable_basis
    bonus_depreciation := 0
    section_179_deduction := section_179_amount
    macrs_first_year := 0
    total_first_year_deduction := section_179_amount
    remaining_basis := remaining_basis
    method_used := "SECTION_179"
    in_service_date := some in_service_date }

/-- Embedding of `DepreciationCalculationService.calculate_macrs_gds`.
The function performs no input validation (an out-of-table life defaults
to the 5-year schedule inside `get_macrs_first_year_rate`). -/
def calculate_macrs_gds (asset_name : String) (cost : ℚ)
    (business_use_percent : ℚ) (in_service_date : Date) (useful_life : ℤ) :
    DepreciationCalculation :=
  let depreciable_basis := cost * (business_use_percent / 100)
  let first_year_rate := get_macrs_first_year_rate useful_life in_service_date.year
  let macrs_first_year := depreciable_basis * first_year_rate
  let remaining_basis := depreciable_basis - macrs_first_year
  { asset_name := asset_name
    cost := cost
    business_use_percent := business_use_percent
    depreciable_basis := depreciable_basis
    bonus_depreciation := 0
    section_179_deduction := 0
    macrs_first_year := macrs_first_year
    total_first_year_deduction := macrs_first_year
    remaining_basis := remaining_basis
    method_used := "MACRS_GDS"
    in_service_date := some in_service_date }

/-- Embedding of `DepreciationCalculationService.calculate_macrs_ads`.
The only guard is implicit: `1.0 / useful_life` raises ZeroDivisionError
when `useful_life == 0`; there is no other validation. -/
def calculate_macrs_ads (asset_name : String) (cost : ℚ)
    (business_use_percent : ℚ) (in_service_date : Date) (useful_life : ℤ) :
    Except PyErr DepreciationCalculation :=
  if useful_life = 0 then .error .zeroDivisionError
  else
    let depreciable_basis := cost * (business_use_percent / 100)
    let ads_rate := (1 / (useful_life : ℚ)) * (1/2)
    let ads_first_year := depreciable_basis * ads_rate
    let remaining_basis := depreciable_basis - ads_first_year
    .ok
      { asset_name := asset_name
        cost := cost
        business_use_percent := business_use_percent
        depreciable_basis := depreciable_basis
        bonus_depreciation := 0
        section_179_deduction := 0
        macrs_first_year := ads_first_year
        total_first_year_deduction := ads_first_year
        remaining_basis := remaining_basis
        method_used := "MACRS_ADS"
        in_service_date := some in_service_date }

/-- Embedding of Python `max(iterable, key = f)` seeded with a first
element: the current maximum is replaced only by a strictly larger key,
so ties resolve to the earliest element. -/
def pyMaxBy (f : DepreciationCalculation → ℚ) :
    DepreciationCalculation → List DepreciationCalculation → DepreciationCalculation
  | a, [] => a
  | a, b :: t => pyMaxBy f (if f a < f b then b else a) t

/-- Embedding of `DepreciationCalculationService.calculate_optimal_method`:
computes the §179, bonus and MACRS-GDS candidates and picks the one with
the largest `total_first_year_deduction` via Python `max` (the appended
informational note is omitted with the rest of the notes). -/
def calculate_optimal_method (asset_name : String) (cost : ℚ)
    (business_use_percent : ℚ) (in_service_date : Date)
    (section_179_available : ℚ) (business_income_limit : Option ℚ)
    (useful_life : ℤ) : DepreciationCalculation :=
  let section_179_calc := calculate_section_179 asset_name cost business_use_percent
    in_service_date section_179_available business_income_limit
  let bonus_calc := calculate_bonus_depreciation asset_name cost business_use_percent
    in_service_date none
  let macrs_calc := calculate_macrs_gds asset_name cost business_use_percent
    in_service_date useful_life
  pyMaxBy (fun x => x.total_first_year_deduction) section_179_calc [bonus_calc, macrs_calc]

/-! ## AssetDepreciationService (services/asset_depreciation_service.py) -/

/-- Pydantic model `AssetDepreciationDTO`: one monthly schedule entry
(the date string is embedded as a `Date`). -/
structure AssetDepreciationDTO where
  depreciation_date : Date
  new_book_value : ℚ
deriving DecidableEq, Repr

/-- Anchor of every schedule: `datetime.now().replace(day = 1)` minus one
year (the schedule retroactively starts 12 months before generation). -/
def scheduleStart (now : Date) : Date :=
  { year := now.year - 1, month := now.month, day := 1 }

/-- Loop body shared by `straight_line_depreciation`: subtract a constant
monthly amount from the running book value and floor it at the salvage
value, emitting one entry per month. -/
def constantDecLoop (monthly_depreciation salvage_value : ℚ) :
    ℚ → Date → ℕ → List AssetDepreciationDTO
  | _, _, 0 => []
  | book_value, d, n + 1 =>
    let bv := book_value - monthly_depreciation
    let bv' := if bv < salvage_value then salvage_value else bv
    { depreciation_date := d, new_book_value := bv' }
      :: constantDecLoop monthly_depreciation salvage_value bv' (d.addMonths 1) n

/-- Embedding of `AssetDepreciationService.straight_line_depreciation`.
The division `(initial_cost - salvage_value) / useful_life` is unguarded
in the source; `useful_life == 0` raises ZeroDivisionError. -/
def straight_line_depreciation (initial_cost salvage_value : ℚ) (useful_life : ℤ)
    (now : Date) : Except PyErr (List AssetDepreciationDTO) :=
  if useful_life = 0 then .error .zeroDivisionError
  else
    let annual_depreciation := (initial_cost - salvage_value) / (useful_life : ℚ)
    let monthly_depreciation := annual_depreciation / 12
    .ok (constantDecLoop monthly_depreciation salvage_value initial_cost
      (scheduleStart now) (useful_life * 12).toNat)

/-- Loop body of `declining_balance_depreciation`: each month depreciates
`book_value * rate / 12` of the current book value, floored at salvage. -/
def decliningLoop (rate salvage_value : ℚ) :
    ℚ → Date → ℕ → List AssetDepreciationDTO
  | _, _, 0 => []
  | book_value, d, n + 1 =>
    let depreciation := book_value * rate / 12
    let bv := book_value - depreciation
    let bv' := if bv < salvage_value then salvage_value else bv
    { depreciation_date := d, new_book_value := bv' }
      :: decliningLoop rate salvage_value bv' (d.addMonths 1) n

/-- Embedding of `AssetDepreciationService.declining_balance_depreciation`.
No division by `useful_life` occurs, so `useful_life == 0` silently
produces an empty schedule (the month range is empty). -/
def declining_balance_depreciation (initial_cost salvage_value : ℚ)
    (useful_life : ℤ) (rate : ℚ) (now : Date) : List AssetDepreciationDTO :=
  decliningLoop rate salvage_value initial_cost (scheduleStart now)
    (useful_life * 12).toNat

/-- Embedding of `AssetDepreciationService.double_declining_balance_depreciation`:
delegates to the declining-balance method with rate `2.0 / useful_life`;
that division is unguarded and raises ZeroDivisionError at zero life. -/
def double_declining_balance_depreciation (initial_cost salvage_value : ℚ)
    (useful_life : ℤ) (now : Date) : Except PyErr (List AssetDepreciationDTO) :=
  if useful_life = 0 then .error .zeroDivisionError
  else .ok (declining_balance_depreciation initial_cost salvage_value useful_life
    (2 / (useful_life : ℚ)) now)

/-- Python floor division `a // b` on integers. -/
def pyFloorDiv (a b : ℤ) : ℤ :=
  Int.fdiv a b

/-- Loop body of `units_of_production_depreciation`; `month` is the 1-based
loop index of the source. -/
def unitsLoop (depreciation_per_unit salvage_value : ℚ) (total_units units_per_year : ℤ) :
    ℚ → Date → ℤ → ℕ → List AssetDepreciationDTO
  | _, _, _, 0 => []
  | book_value, d, month, n + 1 =>
    let units_this_month : ℤ :=
      min (pyFloorDiv units_per_year 12)
        (total_units - (month - 1) * pyFloorDiv units_per_year 12)
    let bv := book_value - depreciation_per_unit * (units_this_month : ℚ)
    let bv' := if bv < salvage_value then salvage_value else bv
    { depreciation_date := d, new_book_value := bv' }
      :: unitsLoop depreciation_per_unit salvage_value total_units units_per_year
          bv' (d.addMonths 1) (month + 1) n

/-- Embedding of `AssetDepreciationService.units_of_production_depreciation`.
Both divisions (`/ total_units` and `/ units_produced_per_year`) are
unguarded in the source and raise ZeroDivisionError on a zero divisor. -/
def units_of_production_depreciation (initial_cost salvage_value : ℚ)
    (total_units units_produced_per_year : ℤ) (now : Date) :
    Except PyErr (List AssetDepreciationDTO) :=
  if total_units = 0 then .error .zeroDivisionError
  else if units_produced_per_year = 0 then .error .zeroDivisionError
  else
    let depreciation_per_unit := (initial_cost - salvage_value) / (total_units : ℚ)
    let total_months : ℤ := ⌈(total_units : ℚ) / (units_produced_per_year : ℚ) * 12⌉
    .ok (unitsLoop depreciation_per_unit salvage_value total_units
      units_produced_per_year initial_cost (scheduleStart now) 1 total_months.toNat)

/-! ## LoanInformationService (services/loan_service.py) -/

/-- Loan record (`LoanInformationDTO`), restricted to the fields the
embedded loan functions read.  The optional date-string fields are
embedded as `Option Date` (`none` models an absent or unparseable string,
for which the source falls back to a computed default). -/
structure LoanInformationDTO where
  loan_amount : ℚ
  interest_rate : ℚ
  loan_term_years : ℤ
  monthly_payment : ℚ
  loan_start_date : Option Date
  loan_end_date : Option Date
deriving DecidableEq, Repr

/-- Embedding of `LoanInformationService.calculate_monthly_payment`.
The zero-rate branch mirrors the source; in the annuity branch the source
divides by `1 - pow(1 + r, -n)`, which raises ZeroDivisionError when that
quantity is zero (for instance a positive rate with a zero term), so the
embedding guards that division explicitly. -/
def calculate_monthly_payment (loan_amount interest_rate : ℚ)
    (loan_term_years : ℤ) : Except PyErr ℚ :=
  let monthly_interest_rate := interest_rate / 1200
  let total_payments : ℤ := loan_term_years * 12
  if monthly_interest_rate = 0 then
    .ok (if 0 < total_payments then loan_amount / (total_payments : ℚ) else 0)
  else
    let denom := 1 - (1 + monthly_interest_rate) ^ (-total_payments)
    if denom = 0 then .error .zeroDivisionError
    else .ok (loan_amount * monthly_interest_rate / denom)

/-- One row of the amortization schedule produced by
`generate_amortization_schedule` (a dict in the source); the stored
monetary amounts are rounded to cents exactly as in the source. -/
structure AmortEntry where
  payment_number : ℤ
  payment_date : Date
  payment_amount : ℚ
  principal_payment : ℚ
  interest_payment : ℚ
  remaining_balance : ℚ
deriving DecidableEq, Repr

/-- Upper bound (in months, hence loop iterations) on the span from
`cur` to `endDate`; each iteration of the amortization loop advances
`cur` by one month, so this is enough fuel to run the source's while
loop to completion. -/
def monthSpan (cur endDate : Date) : ℤ :=
  12 * (endDate.year - cur.year) + (endDate.month - cur.month) + 1

/-- Amortization while loop of `generate_amortization_schedule`: runs
while the balance exceeds 0.01 and the payment date has not passed
`endDate`.  `fuel` only bounds the recursion; it is chosen large enough
that the date guard always stops the loop first. -/
def amortLoop (monthly_interest_rate monthly_payment : ℚ) (endDate : Date) :
    ℕ → ℚ → Date → ℤ → List AmortEntry
  | 0, _, _, _ => []
  | n + 1, remaining_balance, cur, k =>
    if 1/100 < remaining_balance ∧ Date.le cur endDate then
      let interest_payment := remaining_balance * monthly_interest_rate
      let principal_payment := monthly_payment - interest_payment
      let principal_payment' :=
        if remaining_balance < principal_payment then remaining_balance
        else principal_payment
      let total_payment :=
        if remaining_balance < principal_payment then
          remaining_balance + interest_payment
        else monthly_payment
      let bal := remaining_balance - principal_payment'
      let bal' := if bal < 0 then 0 else bal
      { payment_number := k
        payment_date := cur
        payment_amount := pyRound2 total_payment
        principal_payment := pyRound2 principal_payment'
        interest_payment := pyRound2 interest_payment
        remaining_balance := pyRound2 bal' }
        :: amortLoop monthly_interest_rate monthly_payment endDate n bal'
            (cur.addMonths 1) (k + 1)
    else []

/-- Embedding of `LoanInformationService.generate_amortization_schedule`. -/
def generate_amortization_schedule (loan : LoanInformationDTO) (now : Date) :
    List AmortEntry :=
  let monthly_interest_rate := loan.interest_rate / 1200
  let start := loan.loan_start_date.getD now
  let endDate := loan.loan_end_date.getD (start.addMonths (loan.loan_term_years * 12))
  let first := start.addMonths 1
  amortLoop monthly_interest_rate loan.monthly_payment endDate
    (monthSpan first endDate).toNat loan.loan_amount first 1

/-- Payoff report returned by `calculate_loan_payoff` (a dict in the
source; the echoed payoff-date string is omitted). -/
structure PayoffResult where
  remaining_balance : ℚ
  prepayment_penalty : ℚ
  total_payoff_amount : ℚ
  total_interest_paid : ℚ
  total_principal_paid : ℚ
  original_loan_amount : ℚ
deriving DecidableEq, Repr

/-- Walk of `calculate_loan_payoff` over the amortization schedule:
accumulate fully elapsed rows; at the first row past the target date,
pro-rate that month's interest by elapsed-days/30 and stop.  The state is
(remaining balance, interest paid, principal paid). -/
def payoffLoop (target : Date) : List AmortEntry → ℚ × ℚ × ℚ → ℚ × ℚ × ℚ
  | [], acc => acc
  | e :: t, (bal, interest_paid, principal_paid) =>
    if Date.le e.payment_date target then
      payoffLoop target t
        (e.remaining_balance, interest_paid + e.interest_payment,
          principal_paid + e.principal_payment)
    else
      let start_of_month := e.payment_date.addMonths (-1)
      let days_elapsed := dateDiffDays target start_of_month
      let interest_paid' :=
        if 0 < days_elapsed ∧ days_elapsed < 30 then
          interest_paid + e.interest_payment * ((days_elapsed : ℚ) / 30)
        else interest_paid
      (bal, interest_paid', principal_paid)

/-- Embedding of `LoanInformationService.calculate_loan_payoff`. -/
def calculate_loan_payoff (loan : LoanInformationDTO) (payoff_date : Option Date)
    (prepayment_penalty_rate : ℚ) (now : Date) : PayoffResult :=
  let target := payoff_date.getD now
  let schedule := generate_amortization_schedule loan now
  let acc := payoffLoop target schedule (loan.loan_amount, 0, 0)
  let remaining_balance := acc.1
  let prepayment_penalty := remaining_balance * (prepayment_penalty_rate / 100)
  let total_payoff := remaining_balance + prepayment_penalty
  { remaining_balance := pyRound2 remaining_balance
    prepayment_penalty := pyRound2 prepayment_penalty
    total_payoff_amount := pyRound2 total_payoff
    total_interest_paid := pyRound2 acc.2.1
    total_principal_paid := pyRound2 acc.2.2
    original_loan_amount := loan.loan_amount }

/-! ## ScenarioCalculationService (services/scenario_calculation_service.py) -/

/-- Input dataclass `AssetSale`.  `close_month` is a YYYY-MM string in the
source, parsed by `_parse_month` with a fallback to now; it is embedded
as the parse result (`none` models an unparseable string). -/
structure AssetSale where
  asset_id : ℤ
  asset_name : String
  original_cost : ℚ
  accumulated_depreciation : ℚ
  sale_price : ℚ
  transaction_fees : ℚ
  close_month : Option Date
deriving DecidableEq, Repr

/-- Input dataclass `ReplacementAsset` (`in_service_month` embedded like
`close_month` above). -/
structure ReplacementAsset where
  name : String
  cost : ℚ
  method : String
  business_use_percent : ℚ
  in_service_month : Option Date
  useful_life : ℤ
deriving DecidableEq, Repr

/-- Input dataclass `ScenarioInputs`. -/
structure ScenarioInputs where
  user_id : ℤ
  assets_to_sell : List AssetSale
  replacement_assets : List ReplacementAsset
  marginal_tax_rate : ℚ
  capital_gains_rate : ℚ
  business_income_limit : Option ℚ
  override_section_179_limit : Option ℤ
  override_bonus_percent : Option ℤ
deriving DecidableEq, Repr

/-- Warnings appended to `ScenarioResults.warnings` (formatted strings in
the source, embedded as tagged values carrying the interpolated data). -/
inductive ScenarioWarning where
  | unknownMethod (method asset_name : String) : ScenarioWarning
  | budgetLimitReached (used available : ℚ) : ScenarioWarning
  | additionalCashRequired (amount : ℚ) : ScenarioWarning
deriving DecidableEq, Repr

/-- Result dataclass `ScenarioResults`. -/
structure ScenarioResults where
  total_sale_proceeds : ℚ
  total_transaction_fees : ℚ
  total_section_1245_recapture : ℚ
  total_section_1231_gain : ℚ
  total_tax_on_sales : ℚ
  net_cash_from_liquidation : ℚ
  total_replacement_cost : ℚ
  total_bonus_depreciation : ℚ
  total_section_179 : ℚ
  total_macrs_first_year : ℚ
  total_first_year_deductions : ℚ
  tax_savings_from_deductions : ℚ
  cash_required_for_replacements : ℚ
  net_cash_flow : ℚ
  sale_details : List SaleCalculation
  replacement_details : List DepreciationCalculation
  calculated_at : Date
  tax_year : ℤ
  warnings : List ScenarioWarning
deriving DecidableEq, Repr

/-- Fresh `ScenarioResults()` with the dataclass defaults. -/
def initResults (now : Date) : ScenarioResults :=
  { total_sale_proceeds := 0
    total_transaction_fees := 0
    total_section_1245_recapture := 0
    total_section_1231_gain := 0
    total_tax_on_sales := 0
    net_cash_from_liquidation := 0
    total_replacement_cost := 0
    total_bonus_depreciation := 0
    total_section_179 := 0
    total_macrs_first_year := 0
    total_first_year_deductions := 0
    tax_savings_from_deductions := 0
    cash_required_for_replacements := 0
    net_cash_flow := 0
    sale_details := []
    replacement_details := []
    calculated_at := now
    tax_year := now.year
    warnings := [] }

/-- Step 1 loop of `calculate_scenario`: per-sale tax impact and running
liquidation totals. -/
def saleLoop (inputs : ScenarioInputs) (now : Date) :
    ScenarioResults → List AssetSale → ScenarioResults
  | results, [] => results
  | results, sale :: rest =>
    let sale_calc := calculate_sale_tax_impact sale.asset_name sale.original_cost
      sale.accumulated_depreciation sale.sale_price sale.transaction_fees
      inputs.marginal_tax_rate inputs.capital_gains_rate
      (some (sale.close_month.getD now))
    saleLoop inputs now
      { results with
          sale_details := results.sale_details ++ [sale_calc]
          total_sale_proceeds := results.total_sale_proceeds + sale_calc.gross_proceeds
          total_transaction_fees := results.total_transaction_fees + sale_calc.transaction_fees
          total_section_1245_recapture :=
            results.total_section_1245_recapture + sale_calc.section_1245_recapture
          total_section_1231_gain :=
            results.total_section_1231_gain + sale_calc.section_1231_gain
          total_tax_on_sales := results.total_tax_on_sales
            + (sale_calc.tax_on_recapture + sale_calc.tax_on_capital_gain) }
      rest

/-- Section 179 budget seeded by step 2 of `calculate_scenario`: the
explicit override, or the phaseout-reduced limit for the total
replacement cost in the current tax year. -/
def s179Budget (inputs : ScenarioInputs) (now : Date) : ℤ :=
  match inputs.override_section_179_limit with
  | some v => v
  | none =>
    calculate_section_179_limit_with_phaseout
      ((inputs.replacement_assets.map (fun r => r.cost)).sum) now.year

/-- One iteration of the replacement loop of `calculate_scenario`.  The
state is (remaining §179 budget, accumulated results).  Unknown method
tags append a warning and leave the rest of the state unchanged. -/
def replacementStep (inputs : ScenarioInputs) (now : Date)
    (st : ℚ × ScenarioResults) (r : ReplacementAsset) :
    Except PyErr (ℚ × ScenarioResults) :=
  let in_service_date := r.in_service_month.getD now
  if r.method = "BONUS" then
    let depr_calc := calculate_bonus_depreciation r.name r.cost
      r.business_use_percent in_service_date inputs.override_bonus_percent
    .ok (st.1,
      { st.2 with
          total_bonus_depreciation :=
            st.2.total_bonus_depreciation + depr_calc.bonus_depreciation
          replacement_details := st.2.replacement_details ++ [depr_calc] })
  else if r.method = "SECTION_179" then
    let depr_calc := calculate_section_179 r.name r.cost
      r.business_use_percent in_service_date st.1 inputs.business_income_limit
    .ok (st.1 - depr_calc.section_179_deduction,
      { st.2 with
          total_section_179 :=
            st.2.total_section_179 + depr_calc.section_179_deduction
          replacement_details := st.2.replacement_details ++ [depr_calc] })
  else if r.method = "MACRS_GDS" then
    let depr_calc := calculate_macrs_gds r.name r.cost
      r.business_use_percent in_service_date r.useful_life
    .ok (st.1,
      { st.2 with
          total_macrs_first_year :=
            st.2.total_macrs_first_year + depr_calc.macrs_first_year
          replacement_details := st.2.replacement_details ++ [depr_calc] })
  else if r.method = "MACRS_ADS" then
    match calculate_macrs_ads r.name r.cost r.business_use_percent
        in_service_date r.useful_life with
    | .error e => .error e
    | .ok depr_calc =>
      .ok (st.1,
        { st.2 with
            total_macrs_first_year :=
              st.2.total_macrs_first_year + depr_calc.macrs_first_year
            replacement_details := st.2.replacement_details ++ [depr_calc] })
  else
    .ok (st.1,
      { st.2 with
          warnings := st.2.warnings ++ [.unknownMethod r.method r.name] })

/-- Replacement loop of `calculate_scenario`, in input-list order. -/
def replacementLoop (inputs : ScenarioInputs) (now : Date) :
    ℚ × ScenarioResults → List ReplacementAsset → Except PyErr (ℚ × ScenarioResults)
  | st, [] => .ok st
  | st, r :: rest =>
    match replacementStep inputs now st r with
    | .error e => .error e
    | .ok st' => replacementLoop inputs now st' rest

/-- State of `calculate_scenario` at the top of the replacement loop:
the seeded mutable §179 remaining-budget counter paired with the results
accumulated by steps 1 and 2 (liquidation totals and replacement cost). -/
def scenarioStart (inputs : ScenarioInputs) (now : Date) : ℚ × ScenarioResults :=
  let results0 := saleLoop inputs now (initResults now) inputs.assets_to_sell
  let results1 :=
    { results0 with
        net_cash_from_liquidation := results0.total_sale_proceeds
          - results0.total_transaction_fees - results0.total_tax_on_sales }
  let total_replacement_cost := (inputs.replacement_assets.map (fun r => r.cost)).sum
  let results2 := { results1 with total_replacement_cost := total_replacement_cost }
  (((s179Budget inputs now : ℤ) : ℚ), results2)

/-- Embedding of `ScenarioCalculationService.calculate_scenario`. -/
def calculate_scenario (inputs : ScenarioInputs) (now : Date) :
    Except PyErr ScenarioResults :=
  let section_179_budget := s179Budget inputs now
  match replacementLoop inputs now (scenarioStart inputs now)
      inputs.replacement_assets with
  | .error e => .error e
  | .ok (remaining, results3) =>
    let results4 :=
      { results3 with
          total_first_year_deductions := results3.total_bonus_depreciation
            + results3.total_section_179 + results3.total_macrs_first_year }
    let results5 :=
      { results4 with
          tax_savings_from_deductions :=
            results4.total_first_year_deductions * inputs.marginal_tax_rate }
    let results6 :=
      { results5 with
          cash_required_for_replacements := results5.total_replacement_cost }
    let results7 :=
      { results6 with
          net_cash_flow := results6.net_cash_from_liquidation
            + results6.tax_savings_from_deductions
            - results6.cash_required_for_replacements }
    let results8 :=
      if remaining < (section_179_budget : ℚ) then
        { results7 with
            warnings := results7.warnings
              ++ [.budgetLimitReached ((section_179_budget : ℚ) - remaining)
                    (section_179_budget : ℚ)] }
      else results7
    let results9 :=
      if results8.net_cash_flow < 0 then
        { results8 with
            warnings := results8.warnings
              ++ [.additionalCashRequired |results8.net_cash_flow|] }
      else results8
    .ok results9

/-! ## Property vocabulary and concrete instances used by the claims -/

/-- Book-value invariant of a depreciation schedule: the values are
non-increasing across successive entries and never drop below the
salvage value. -/
def schedInv (salvage : ℚ) (l : List AssetDepreciationDTO) : Prop :=
  List.Chain' (fun a b => b.new_book_value ≤ a.new_book_value) l
    ∧ ∀ e ∈ l, salvage ≤ e.new_book_value

/-- Book-value invariant applied to the value of a fallible schedule
generator. -/
def okSched (x : Except PyErr (List AssetDepreciationDTO)) (salvage : ℚ) : Prop :=
  ∀ l, x = .ok l → schedInv salvage l

/-- Property holding of the result of a fallible scenario computation. -/
def okScenario (x : Except PyErr ScenarioResults) (p : ScenarioResults → Prop) : Prop :=
  ∀ r, x = .ok r → p r

/-- Section 179 amount granted to one asset by `calculate_section_179`:
the depreciable basis capped by the remaining budget and, when given, by
the business income limit. -/
def grant179 (business_income_limit : Option ℚ) (basis remaining : ℚ) : ℚ :=
  match business_income_limit with
  | some l => min (min basis remaining) l
  | none => min basis remaining

/-- Concrete loan exhibiting the month-end start-date behaviour of
`calculate_loan_payoff` (start date January 31). -/
def cexLoan : LoanInformationDTO :=
  { loan_amount := 1200, interest_rate := 12, loan_term_years := 1,
    monthly_payment := 700, loan_start_date := some ⟨2025, 1, 31⟩,
    loan_end_date := none }

/-- Concrete loan mirroring the repository test fixture `sample_loan`. -/
def samLoan : LoanInformationDTO :=
  { loan_amount := 100000, interest_rate := 5, loan_term_years := 5,
    monthly_payment := 188712/100, loan_start_date := some ⟨2024, 1, 1⟩,
    loan_end_date := some ⟨2029, 1, 1⟩ }

/-- Concrete scenario input with no sales and no replacements. -/
def emptyScenarioInputs : ScenarioInputs :=
  { user_id := 1, assets_to_sell := [], replacement_assets := [],
    marginal_tax_rate := 24/100, capital_gains_rate := 15/100,
    business_income_limit := none, override_section_179_limit := none,
    override_bonus_percent := none }

/-- Concrete scenario input with two §179 replacement assets competing
for one budget. -/
def twoAsset179Inputs : ScenarioInputs :=
  { user_id := 1, assets_to_sell := [],
    replacement_assets :=
      [{ name := "a", cost := 1000000, method := "SECTION_179",
         business_use_percent := 100, in_service_month := some ⟨2025, 3, 1⟩,
         useful_life := 5 },
       { name := "b", cost := 1000000, method := "SECTION_179",
         business_use_percent := 100, in_service_month := some ⟨2025, 4, 1⟩,
         useful_life := 5 }],
    marginal_tax_rate := 24/100, capital_gains_rate := 15/100,
    business_income_limit := none, override_section_179_limit := none,
    override_bonus_percent := none }

/-- Hypothetical candidate with a 300000 first-year deduction, used to
instantiate the stable-max selection on the triple named by claim C7. -/
def cand300k : DepreciationCalculation :=
  { asset_name := "c179", cost := 0, business_use_percent := 0,
    depreciable_basis := 0, bonus_depreciation := 0, section_179_deduction := 300000,
    macrs_first_year := 0, total_first_year_deduction := 300000,
    remaining_basis := 0, method_used := "SECTION_179", in_service_date := none }

/-- Hypothetical candidate with a 250000 first-year deduction. -/
def cand250k : DepreciationCalculation :=
  { asset_name := "cbonus", cost := 0, business_use_percent := 0,
    depreciable_basis := 0, bonus_depreciation := 250000, section_179_deduction := 0,
    macrs_first_year := 0, total_first_year_deduction := 250000,
    remaining_basis := 0, method_used := "BONUS", in_service_date := none }

/-- Hypothetical candidate with a 100000 first-year deduction. -/
def cand100k : DepreciationCalculation :=
  { asset_name := "cmacrs", cost := 0, business_use_percent := 0,
    depreciable_basis := 0, bonus_depreciation := 0, section_179_deduction := 0,
    macrs_first_year := 100000, total_first_year_deduction := 100000,
    remaining_basis := 0, method_used := "MACRS_GDS", in_service_date := none }

/-- Fixed generation date used by concrete witnesses. -/
def testNow : Date := ⟨2025, 6, 15⟩

/-! ## Theorems -/

/-- Truncation toward zero of an integer cast is the identity. -/
theorem pyTrunc_intCast (n : ℤ) : pyTrunc (n : ℚ) = n := by
  unfold pyTrunc
  split_ifs with h
  · exact Int.floor_intCast n
  · have h1 : -((n : ℚ)) = ((-n : ℤ) : ℚ) := by push_cast; ring
    rw [h1, Int.floor_intCast]; ring

/-- Claim C1: in `calculate_sale_tax_impact` with nonnegative accumulated
depreciation, the §1245 recapture is the total gain clamped to the interval
from 0 to the accumulated depreciation, the §1231 gain is the excess of the
total gain over the recapture floored at 0, a nonnegative total gain splits
exactly into recapture plus §1231 gain, and a negative total gain makes
both components zero. -/
theorem claim1_sale_tax_decomposition
    (asset_name : String)
    (original_cost accumulated_depreciation sale_price transaction_fees
      ordinary_rate cap_rate : ℚ) (sale_date : Option Date)
    (hacc : 0 ≤ accumulated_depreciation) (c : SaleCalculation)
    (hc : c = calculate_sale_tax_impact asset_name original_cost
      accumulated_depreciation sale_price transaction_fees ordinary_rate
      cap_rate sale_date) :
    c.section_1245_recapture = min (max c.total_gain 0) accumulated_depreciation
    ∧ c.section_1231_gain = max 0 (c.total_gain - c.section_1245_recapture)
    ∧ (0 ≤ c.total_gain →
        c.section_1245_recapture + c.section_1231_gain = c.total_gain)
    ∧ (c.total_gain < 0 →
        c.section_1245_recapture = 0 ∧ c.section_1231_gain = 0) := by
  subst hc
  have hrec : (calculate_sale_tax_impact asset_name original_cost
      accumulated_depreciation sale_price transaction_fees ordinary_rate
      cap_rate sale_date).section_1245_recapture
      = min (max 0 ((calculate_sale_tax_impact asset_name original_cost
          accumulated_depreciation sale_price transaction_fees ordinary_rate
          cap_rate sale_date).total_gain)) accumulated_depreciation := rfl
  have hgn : (calculate_sale_tax_impact asset_name original_cost
      accumulated_depreciation sale_price transaction_fees ordinary_rate
      cap_rate sale_date).section_1231_gain
      = max 0 ((calculate_sale_tax_impact asset_name original_cost
          accumulated_depreciation sale_price transaction_fees ordinary_rate
          cap_rate sale_date).total_gain
        - (calculate_sale_tax_impact asset_name original_cost
          accumulated_depreciation sale_price transaction_fees ordinary_rate
          cap_rate sale_date).section_1245_recapture) := rfl
  rw [hgn, hrec]
  generalize (calculate_sale_tax_impact asset_name original_cost
    accumulated_depreciation sale_price transaction_fees ordinary_rate
    cap_rate sale_date).total_gain = tg
  refine ⟨by rw [max_comm], rfl, ?_, ?_⟩
  · intro h
    rw [max_eq_right h]
    have h2 : min tg accumulated_depreciation ≤ tg := min_le_left _ _
    rw [max_eq_right (by linarith : (0 : ℚ) ≤ tg - min tg accumulated_depreciation)]
    ring
  · intro h
    rw [max_eq_left h.le, min_eq_left hacc]
    exact ⟨rfl, by rw [sub_zero]; exact max_eq_left h.le⟩

/-- Witness for C1 at the worked example of the specification (sale price
60000, original cost 50000, accumulated depreciation 40000). -/
theorem claim1_witness :
    (0 : ℚ) ≤ 40000
    ∧ (calculate_sale_tax_impact "backhoe" 50000 40000 60000 1000 (24/100)
        (15/100) none).section_1245_recapture
      + (calculate_sale_tax_impact "backhoe" 50000 40000 60000 1000 (24/100)
        (15/100) none).section_1231_gain
      = (calculate_sale_tax_impact "backhoe" 50000 40000 60000 1000 (24/100)
        (15/100) none).total_gain := by
  refine ⟨by norm_num, ?_⟩
  have h := claim1_sale_tax_decomposition "backhoe" 50000 40000 60000 1000
    (24/100) (15/100) none (by norm_num) _ rfl
  exact h.2.2.1 (by norm_num [calculate_sale_tax_impact])

/-- Claim C3 (amended): `calculate_section_179_limit_with_phaseout`
returns the full limit at or below the phaseout threshold, and above it
returns the limit reduced by the truncation of the phaseout excess,
floored at 0 (the code truncates the excess before subtracting, not the
final amount); in particular the full limit applies exactly at the
threshold and the result is exactly 0 at threshold plus limit. -/
theorem claim3_phaseout (total_purchases : ℚ) (year : ℤ) :
    (total_purchases ≤ ((get_policy_for_year year).section_179_phaseout_threshold : ℚ) →
      calculate_section_179_limit_with_phaseout total_purchases year
        = (get_policy_for_year year).section_179_limit)
    ∧ (((get_policy_for_year year).section_179_phaseout_threshold : ℚ) < total_purchases →
      calculate_section_179_limit_with_phaseout total_purchases year
        = max 0 ((get_policy_for_year year).section_179_limit
            - pyTrunc (total_purchases
                - ((get_policy_for_year year).section_179_phaseout_threshold : ℚ))))
    ∧ calculate_section_179_limit_with_phaseout
        ((get_policy_for_year year).section_179_phaseout_threshold : ℚ) year
        = (get_policy_for_year year).section_179_limit
    ∧ calculate_section_179_limit_with_phaseout
        (((get_policy_for_year year).section_179_phaseout_threshold : ℚ)
          + ((get_policy_for_year year).section_179_limit : ℚ)) year = 0 := by
  have hbelow : ∀ tp : ℚ,
      tp ≤ ((get_policy_for_year year).section_179_phaseout_threshold : ℚ) →
      calculate_section_179_limit_with_phaseout tp year
        = (get_policy_for_year year).section_179_limit := by
    intro tp h
    unfold calculate_section_179_limit_with_phaseout
    rw [if_pos h]
  have habove : ∀ tp : ℚ,
      ((get_policy_for_year year).section_179_phaseout_threshold : ℚ) < tp →
      calculate_section_179_limit_with_phaseout tp year
        = max 0 ((get_policy_for_year year).section_179_limit
            - pyTrunc (tp - ((get_policy_for_year year).section_179_phaseout_threshold : ℚ))) := by
    intro tp h
    unfold calculate_section_179_limit_with_phaseout
    rw [if_neg (not_le.mpr h)]
  have hlim : 0 < (get_policy_for_year year).section_179_limit := by
    unfold get_policy_for_year
    split_ifs <;> norm_num [policy2024, policy2025]
  refine ⟨hbelow total_purchases, habove total_purchases, hbelow _ le_rfl, ?_⟩
  have hgt : ((get_policy_for_year year).section_179_phaseout_threshold : ℚ)
      < ((get_policy_for_year year).section_179_phaseout_threshold : ℚ)
        + ((get_policy_for_year year).section_179_limit : ℚ) := by
    have : (0 : ℚ) < ((get_policy_for_year year).section_179_limit : ℚ) := by
      exact_mod_cast hlim
    linarith
  rw [habove _ hgt]
  have hsub : ((get_policy_for_year year).section_179_phaseout_threshold : ℚ)
      + ((get_policy_for_year year).section_179_limit : ℚ)
      - ((get_policy_for_year year).section_179_phaseout_threshold : ℚ)
      = ((get_policy_for_year year).section_179_limit : ℚ) := by ring
  rw [hsub, pyTrunc_intCast]
  simp

/-- Witness for C3 at the 2025 policy (threshold 3130000, limit 1250000). -/
theorem claim3_witness :
    calculate_section_179_limit_with_phaseout 3130000 2025 = 1250000
    ∧ calculate_section_179_limit_with_phaseout 4380000 2025 = 0 := by
  constructor
  · have h := (claim3_phaseout 3130000 2025).1
      (by norm_num [get_policy_for_year, policy2025])
    rw [h]
    norm_num [get_policy_for_year, policy2025]
  · have h := (claim3_phaseout 0 2025).2.2.2
    have harg : ((get_policy_for_year 2025).section_179_phaseout_threshold : ℚ)
        + ((get_policy_for_year 2025).section_179_limit : ℚ) = 4380000 := by
      norm_num [get_policy_for_year, policy2025]
    rw [harg] at h
    exact h

/-- Counterexample for C3 as stated: at total purchases of 3130000.5 in
2025 the code returns the full limit 1250000 (it truncates the half-dollar
excess to 0 before subtracting), while the formula of the claim — truncate
max(0, limit − excess) — gives 1249999. -/
theorem claim3_counterexample :
    calculate_section_179_limit_with_phaseout (6260001/2) 2025 = 1250000
    ∧ claimC3PhaseoutFormula (6260001/2) 2025 = 1249999 := by
  have hfloor : ⌊(1/2 : ℚ)⌋ = 0 := by
    rw [Int.floor_eq_iff]
    norm_num
  have hfloor2 : ⌊(2499999/2 : ℚ)⌋ = 1249999 := by
    rw [Int.floor_eq_iff]
    norm_num
  constructor
  · norm_num [calculate_section_179_limit_with_phaseout, get_policy_for_year,
      policy2025, pyTrunc, hfloor]
  · norm_num [claimC3PhaseoutFormula, get_policy_for_year, policy2025, pyTrunc,
      hfloor2]

/-- Claim C8 (the code lacks the guard the claim describes): called with
zero useful life, straight-line and double-declining raise an unguarded
ZeroDivisionError, units-of-production raises it for a zero total-units or
units-per-year divisor, and declining-balance silently returns an empty
schedule; none of them fails with an InvalidParameter validation error. -/
theorem claim8_zero_life_behaviour (now : Date) :
    straight_line_depreciation 1000 100 0 now = .error .zeroDivisionError
    ∧ double_declining_balance_depreciation 1000 100 0 now = .error .zeroDivisionError
    ∧ units_of_production_depreciation 1000 100 0 5 now = .error .zeroDivisionError
    ∧ units_of_production_depreciation 1000 100 10 0 now = .error .zeroDivisionError
    ∧ declining_balance_depreciation 1000 100 0 (1/5) now = []
    ∧ straight_line_depreciation 1000 100 0 now ≠ .error .invalidParameter := by
  refine ⟨rfl, rfl, rfl, ?_, ?_, ?_⟩
  · simp [units_of_production_depreciation]
  · simp [declining_balance_depreciation, decliningLoop]
  · simp [straight_line_depreciation]

/-- Claim C9 (the code performs none of the validation the claim
describes): `calculate_macrs_ads` raises an unguarded ZeroDivisionError at
zero useful life (not InvalidParameter), while a business-use percent of
150, a negative business-use percent, and negative useful lives are all
silently accepted and produce results (including a negative deduction). -/
theorem claim9_no_parameter_validation (d : Date) :
    calculate_macrs_ads "a" 1000 100 d 0 = .error .zeroDivisionError
    ∧ calculate_macrs_ads "a" 1000 100 d 0 ≠ .error .invalidParameter
    ∧ (calculate_bonus_depreciation "a" 1000 150 ⟨2025, 1, 1⟩ none).bonus_depreciation = 600
    ∧ (calculate_section_179 "a" 1000 (-50) d 1000000 none).section_179_deduction = -500
    ∧ (calculate_macrs_gds "a" 1000 100 ⟨2025, 1, 1⟩ (-3)).macrs_first_year = 200
    ∧ (calculate_macrs_ads "a" 1000 100 ⟨2025, 1, 1⟩ (-5)).map
        (fun r => r.total_first_year_deduction) = .ok (-100) := by
  refine ⟨rfl, by simp [calculate_macrs_ads], ?_, ?_, ?_, ?_⟩
  · norm_num [calculate_bonus_depreciation, get_policy_for_date,
      get_policy_for_year, policy2025]
  · norm_num [calculate_section_179]
  · norm_num [calculate_macrs_gds, get_macrs_first_year_rate,
      get_policy_for_year, policy2025]
  · norm_num [calculate_macrs_ads, Except.map]

/-- Claim C10: with no assets to sell and no replacement assets,
`calculate_scenario` succeeds with every monetary total equal to 0, empty
sale and replacement detail lists, and no warnings. -/
theorem claim10_empty_scenario (inputs : ScenarioInputs) (now : Date)
    (h1 : inputs.assets_to_sell = []) (h2 : inputs.replacement_assets = []) :
    calculate_scenario inputs now = .ok
      { total_sale_proceeds := 0, total_transaction_fees := 0,
        total_section_1245_recapture := 0, total_section_1231_gain := 0,
        total_tax_on_sales := 0, net_cash_from_liquidation := 0,
        total_replacement_cost := 0, total_bonus_depreciation := 0,
        total_section_179 := 0, total_macrs_first_year := 0,
        total_first_year_deductions := 0, tax_savings_from_deductions := 0,
        cash_required_for_replacements := 0, net_cash_flow := 0,
        sale_details := [], replacement_details := [],
        calculated_at := now, tax_year := now.year, warnings := [] } := by
  unfold calculate_scenario scenarioStart
  rw [h1, h2]
  simp [saleLoop, replacementLoop, initResults]

/-- Witness for C10 at a concrete empty scenario input. -/
theorem claim10_witness :
    calculate_scenario emptyScenarioInputs testNow = .ok
      { total_sale_proceeds := 0, total_transaction_fees := 0,
        total_section_1245_recapture := 0, total_section_1231_gain := 0,
        total_tax_on_sales := 0, net_cash_from_liquidation := 0,
        total_replacement_cost := 0, total_bonus_depreciation := 0,
        total_section_179 := 0, total_macrs_first_year := 0,
        total_first_year_deductions := 0, tax_savings_from_deductions := 0,
        cash_required_for_replacements := 0, net_cash_flow := 0,
        sale_details := [], replacement_details := [],
        calculated_at := testNow, tax_year := 2025, warnings := [] } :=
  claim10_empty_scenario emptyScenarioInputs testNow rfl rfl

/-- Claim C7: `calculate_optimal_method` computes the §179, bonus and
MACRS-GDS candidates and returns the one with the largest first-year
deduction, with ties resolved toward the earlier candidate in the order
§179, bonus, MACRS; on a candidate triple with deductions 300000, 250000
and 100000 the stable max selection returns the §179 candidate. -/
theorem claim7_optimal_selection (asset_name : String) (cost pct : ℚ) (d : Date)
    (avail : ℚ) (lim : Option ℚ) (life : ℤ)
    (a b c o : DepreciationCalculation)
    (ha : a = calculate_section_179 asset_name cost pct d avail lim)
    (hb : b = calculate_bonus_depreciation asset_name cost pct d none)
    (hcm : c = calculate_macrs_gds asset_name cost pct d life)
    (ho : o = calculate_optimal_method asset_name cost pct d avail lim life) :
    (o = a ∨ o = b ∨ o = c)
    ∧ a.total_first_year_deduction ≤ o.total_first_year_deduction
    ∧ b.total_first_year_deduction ≤ o.total_first_year_deduction
    ∧ c.total_first_year_deduction ≤ o.total_first_year_deduction
    ∧ (b.total_first_year_deduction ≤ a.total_first_year_deduction →
        c.total_first_year_deduction ≤ a.total_first_year_deduction → o = a)
    ∧ (a.total_first_year_deduction < b.total_first_year_deduction →
        c.total_first_year_deduction ≤ b.total_first_year_deduction → o = b)
    ∧ (a.total_first_year_deduction < c.total_first_year_deduction →
        b.total_first_year_deduction < c.total_first_year_deduction → o = c)
    ∧ pyMaxBy (fun x => x.total_first_year_deduction) cand300k [cand250k, cand100k]
        = cand300k := by
  have hlit : pyMaxBy (fun x => x.total_first_year_deduction) cand300k
      [cand250k, cand100k] = cand300k := by
    norm_num [pyMaxBy, cand300k, cand250k, cand100k]
  have ho2 : o = if (if a.total_first_year_deduction < b.total_first_year_deduction
        then b else a).total_first_year_deduction < c.total_first_year_deduction
      then c
      else (if a.total_first_year_deduction < b.total_first_year_deduction
        then b else a) := by
    rw [ho, ha, hb, hcm]
    simp only [calculate_optimal_method, pyMaxBy]
  by_cases h1 : a.total_first_year_deduction < b.total_first_year_deduction
  · rw [if_pos h1] at ho2
    by_cases h2 : b.total_first_year_deduction < c.total_first_year_deduction
    · rw [if_pos h2] at ho2
      subst ho2
      refine ⟨Or.inr (Or.inr rfl), by linarith, by linarith, le_rfl, ?_, ?_, ?_, hlit⟩
      · intro hba hca; exfalso; linarith
      · intro hab hcb; exfalso; linarith
      · intro hac hbc; rfl
    · rw [if_neg h2] at ho2
      subst ho2
      refine ⟨Or.inr (Or.inl rfl), by linarith, le_rfl, by linarith, ?_, ?_, ?_, hlit⟩
      · intro hba hca; exfalso; linarith
      · intro hab hcb; rfl
      · intro hac hbc; exfalso; linarith
  · rw [if_neg h1] at ho2
    by_cases h2 : a.total_first_year_deduction < c.total_first_year_deduction
    · rw [if_pos h2] at ho2
      subst ho2
      refine ⟨Or.inr (Or.inr rfl), by linarith, by linarith, le_rfl, ?_, ?_, ?_, hlit⟩
      · intro hba hca; exfalso; linarith
      · intro hab hcb; exfalso; linarith
      · intro hac hbc; rfl
    · rw [if_neg h2] at ho2
      subst ho2
      refine ⟨Or.inl rfl, le_rfl, by linarith, by linarith, ?_, ?_, ?_, hlit⟩
      · intro hba hca; rfl
      · intro hab hcb; exfalso; linarith
      · intro hac hbc; exfalso; linarith

/-- Witness for C7: a 500000 asset at full business use in 2025 with a
300000 remaining §179 budget gives candidates 300000 (§179), 200000
(bonus at 40 percent) and 100000 (MACRS), and the §179 result is
returned. -/
theorem claim7_witness :
    calculate_optimal_method "x" 500000 100 ⟨2025, 6, 1⟩ 300000 none 5
      = calculate_section_179 "x" 500000 100 ⟨2025, 6, 1⟩ 300000 none := by
  have h := claim7_optimal_selection "x" 500000 100 ⟨2025, 6, 1⟩ 300000 none 5
    _ _ _ _ rfl rfl rfl rfl
  refine h.2.2.2.2.1 ?_ ?_
  · norm_num [calculate_bonus_depreciation, calculate_section_179,
      get_policy_for_date, get_policy_for_year, policy2025]
  · norm_num [calculate_macrs_gds, calculate_section_179,
      get_macrs_first_year_rate, get_policy_for_year, policy2025]

/-- Invariant of the constant-decrement schedule loop: starting at or
above the salvage value, every produced book value stays between the
salvage value and the starting value, and the values are non-increasing. -/
theorem constantDecLoop_inv (delta salvage : ℚ) (hd : 0 ≤ delta) :
    ∀ (n : ℕ) (bv : ℚ) (d : Date), salvage ≤ bv →
      schedInv salvage (constantDecLoop delta salvage bv d n)
      ∧ ∀ e ∈ constantDecLoop delta salvage bv d n, e.new_book_value ≤ bv := by
  intro n
  induction n with
  | zero =>
    intro bv d h
    constructor
    · exact ⟨List.chain'_nil, by intro e he; simp [constantDecLoop] at he⟩
    · intro e he; simp [constantDecLoop] at he
  | succ n ih =>
    intro bv d h
    have hb1 : salvage ≤ (if bv - delta < salvage then salvage else bv - delta) := by
      split_ifs with hc
      · exact le_rfl
      · exact not_lt.mp hc
    have hb2 : (if bv - delta < salvage then salvage else bv - delta) ≤ bv := by
      split_ifs with hc
      · exact h
      · linarith
    obtain ⟨⟨hchain, hmem⟩, hbound⟩ := ih
      (if bv - delta < salvage then salvage else bv - delta) (d.addMonths 1) hb1
    have hcons : constantDecLoop delta salvage bv d (n + 1)
        = { depreciation_date := d,
            new_book_value := if bv - delta < salvage then salvage else bv - delta }
          :: constantDecLoop delta salvage
              (if bv - delta < salvage then salvage else bv - delta)
              (d.addMonths 1) n := rfl
    rw [hcons]
    refine ⟨⟨?_, ?_⟩, ?_⟩
    · refine List.chain'_cons'.mpr ⟨?_, hchain⟩
      intro y hy
      exact hbound y (List.mem_of_mem_head? hy)
    · intro e he
      rcases List.mem_cons.mp he with he | he
      · rw [he]; exact hb1
      · exact hmem e he
    · intro e he
      rcases List.mem_cons.mp he with he | he
      · rw [he]; exact hb2
      · exact le_trans (hbound e he) hb2

/-- Invariant of the declining-balance schedule loop: with a nonnegative
rate and salvage value, every produced book value stays between the
salvage value and the starting value, and the values are non-increasing. -/
theorem decliningLoop_inv (rate salvage : ℚ) (hr : 0 ≤ rate) (hs : 0 ≤ salvage) :
    ∀ (n : ℕ) (bv : ℚ) (d : Date), salvage ≤ bv →
      schedInv salvage (decliningLoop rate salvage bv d n)
      ∧ ∀ e ∈ decliningLoop rate salvage bv d n, e.new_book_value ≤ bv := by
  intro n
  induction n with
  | zero =>
    intro bv d h
    constructor
    · exact ⟨List.chain'_nil, by intro e he; simp [decliningLoop] at he⟩
    · intro e he; simp [decliningLoop] at he
  | succ n ih =>
    intro bv d h
    have hdep : 0 ≤ bv * rate / 12 := by
      have hbv : 0 ≤ bv := le_trans hs h
      positivity
    have hb1 : salvage ≤ (if bv - bv * rate / 12 < salvage then salvage
        else bv - bv * rate / 12) := by
      split_ifs with hc
      · exact le_rfl
      · exact not_lt.mp hc
    have hb2 : (if bv - bv * rate / 12 < salvage then salvage
        else bv - bv * rate / 12) ≤ bv := by
      split_ifs with hc
      · exact h
      · linarith
    obtain ⟨⟨hchain, hmem⟩, hbound⟩ := ih
      (if bv - bv * rate / 12 < salvage then salvage else bv - bv * rate / 12)
      (d.addMonths 1) hb1
    have hcons : decliningLoop rate salvage bv d (n + 1)
        = { depreciation_date := d,
            new_book_value := if bv - bv * rate / 12 < salvage then salvage
              else bv - bv * rate / 12 }
          :: decliningLoop rate salvage
              (if bv - bv * rate / 12 < salvage then salvage else bv - bv * rate / 12)
              (d.addMonths 1) n := rfl
    rw [hcons]
    refine ⟨⟨?_, ?_⟩, ?_⟩
    · refine List.chain'_cons'.mpr ⟨?_, hchain⟩
      intro y hy
      exact hbound y (List.mem_of_mem_head? hy)
    · intro e he
      rcases List.mem_cons.mp he with he | he
      · rw [he]; exact hb1
      · exact hmem e he
    · intro e he
      rcases List.mem_cons.mp he with he | he
      · rw [he]; exact hb2
      · exact le_trans (hbound e he) hb2

/-- Claim C4: for initial cost at or above a nonnegative salvage value, a
useful life of at least one year, and (for declining balance) a
nonnegative rate, the straight-line, declining-balance and
double-declining-balance schedules have non-increasing book values that
never drop below the salvage value. -/
theorem claim4_schedule_invariants (initial_cost salvage_value : ℚ)
    (useful_life : ℤ) (rate : ℚ) (now : Date)
    (h0 : 0 ≤ salvage_value) (h1 : salvage_value ≤ initial_cost)
    (h2 : 1 ≤ useful_life) (hr : 0 ≤ rate) :
    okSched (straight_line_depreciation initial_cost salvage_value useful_life now)
      salvage_value
    ∧ schedInv salvage_value
        (declining_balance_depreciation initial_cost salvage_value useful_life rate now)
    ∧ okSched (double_declining_balance_depreciation initial_cost salvage_value
        useful_life now) salvage_value := by
  have hlq : (0 : ℚ) < (useful_life : ℚ) := by exact_mod_cast (by omega : (0:ℤ) < useful_life)
  refine ⟨?_, ?_, ?_⟩
  · intro l hl
    unfold straight_line_depreciation at hl
    rw [if_neg (by omega : ¬ useful_life = 0)] at hl
    injection hl with hl
    rw [← hl]
    have hd : 0 ≤ (initial_cost - salvage_value) / (useful_life : ℚ) / 12 := by
      apply div_nonneg (div_nonneg (by linarith) (le_of_lt hlq)) (by norm_num)
    exact (constantDecLoop_inv _ _ hd _ _ _ h1).1
  · unfold declining_balance_depreciation
    exact (decliningLoop_inv _ _ hr h0 _ _ _ h1).1
  · intro l hl
    unfold double_declining_balance_depreciation at hl
    rw [if_neg (by omega : ¬ useful_life = 0)] at hl
    injection hl with hl
    rw [← hl]
    unfold declining_balance_depreciation
    have hr2 : 0 ≤ 2 / (useful_life : ℚ) := by positivity
    exact (decliningLoop_inv _ _ hr2 h0 _ _ _ h1).1

/-- Witness for C4: a 1200 asset, zero salvage, one-year life and a
declining rate of one half. -/
theorem claim4_witness :
    okSched (straight_line_depreciation 1200 0 1 testNow) 0
    ∧ schedInv 0 (declining_balance_depreciation 1200 0 1 (1/2) testNow)
    ∧ okSched (double_declining_balance_depreciation 1200 0 1 testNow) 0 :=
  claim4_schedule_invariants 1200 0 1 (1/2) testNow (by norm_num) (by norm_num)
    (by norm_num) (by norm_num)

/-- Section 179 deduction computed by `calculate_section_179` equals the
grant formula: basis capped by the remaining budget and the optional
income limit. -/
theorem section179_deduction_eq (name : String) (cost pct : ℚ) (d : Date)
    (avail : ℚ) (lim : Option ℚ) :
    (calculate_section_179 name cost pct d avail lim).section_179_deduction
      = grant179 lim (cost * (pct / 100)) avail := by
  cases lim <;> rfl

/-- Section 179 grant never exceeds the remaining budget it was computed
against. -/
theorem grant179_le_remaining (lim : Option ℚ) (basis remaining : ℚ) :
    grant179 lim basis remaining ≤ remaining := by
  cases lim with
  | none => exact min_le_right _ _
  | some l => exact le_trans (min_le_left _ _) (min_le_right _ _)

/-- One replacement step preserves the sum of the granted §179 total and
the remaining budget, and keeps the remaining budget nonnegative. -/
theorem replacementStep_inv (inputs : ScenarioInputs) (now : Date)
    (remaining : ℚ) (res : ScenarioResults) (r : ReplacementAsset)
    (st1 : ℚ × ScenarioResults)
    (h : replacementStep inputs now (remaining, res) r = .ok st1) :
    st1.2.total_section_179 + st1.1 = res.total_section_179 + remaining
    ∧ (0 ≤ remaining → 0 ≤ st1.1) := by
  unfold replacementStep at h
  dsimp only at h
  split_ifs at h with h1 h2 h3 h4
  · injection h with h
    rw [← h]
    exact ⟨rfl, fun h0 => h0⟩
  · injection h with h
    rw [← h]
    have hded := grant179_le_remaining inputs.business_income_limit
      (r.cost * (r.business_use_percent / 100)) remaining
    rw [← section179_deduction_eq r.name r.cost r.business_use_percent
      (r.in_service_month.getD now) remaining inputs.business_income_limit] at hded
    constructor
    · show res.total_section_179 + _ + (remaining - _) = res.total_section_179 + remaining
      ring
    · intro h0
      show (0 : ℚ) ≤ remaining - _
      linarith
  · injection h with h
    rw [← h]
    exact ⟨rfl, fun h0 => h0⟩
  · cases hads : calculate_macrs_ads r.name r.cost r.business_use_percent
        (r.in_service_month.getD now) r.useful_life with
    | error e => rw [hads] at h; exact absurd h (by simp)
    | ok dc =>
      rw [hads] at h
      injection h with h
      rw [← h]
      exact ⟨rfl, fun h0 => h0⟩
  · injection h with h
    rw [← h]
    exact ⟨rfl, fun h0 => h0⟩

/-- Replacement-loop invariant: a successful run of the loop preserves
the sum of the accumulated §179 total and the remaining budget, and a
nonnegative budget stays nonnegative. -/
theorem replacementLoop_inv (inputs : ScenarioInputs) (now : Date) :
    ∀ (rs : List ReplacementAsset) (remaining : ℚ) (res : ScenarioResults)
      (st' : ℚ × ScenarioResults),
      replacementLoop inputs now (remaining, res) rs = .ok st' →
      0 ≤ remaining →
      st'.2.total_section_179 + st'.1 = res.total_section_179 + remaining
        ∧ 0 ≤ st'.1 := by
  intro rs
  induction rs with
  | nil =>
    intro remaining res st' h h0
    simp [replacementLoop] at h
    rw [← h]
    exact ⟨rfl, h0⟩
  | cons r rest ih =>
    intro remaining res st' h h0
    rw [show replacementLoop inputs now (remaining, res) (r :: rest)
        = (match replacementStep inputs now (remaining, res) r with
          | .error e => .error e
          | .ok st1 => replacementLoop inputs now st1 rest) from rfl] at h
    cases hstep : replacementStep inputs now (remaining, res) r with
    | error e => rw [hstep] at h; exact absurd h (by simp)
    | ok st1 =>
      rw [hstep] at h
      obtain ⟨r1, res1⟩ := st1
      have hs := replacementStep_inv inputs now remaining res r (r1, res1) hstep
      have hrec := ih r1 res1 st' h (hs.2 h0)
      refine ⟨?_, hrec.2⟩
      rw [hrec.1]
      exact hs.1

/-- Accumulating sale results never changes the §179 total. -/
theorem saleLoop_total179 (inputs : ScenarioInputs) (now : Date) :
    ∀ (sales : List AssetSale) (res : ScenarioResults),
      (saleLoop inputs now res sales).total_section_179 = res.total_section_179 := by
  intro sales
  induction sales with
  | nil => intro res; rfl
  | cons sale rest ih =>
    intro res
    rw [show saleLoop inputs now res (sale :: rest)
        = saleLoop inputs now _ rest from rfl, ih]

/-- First component of the loop start state is the seeded budget. -/
theorem scenarioStart_fst (inputs : ScenarioInputs) (now : Date) :
    (scenarioStart inputs now).1 = ((s179Budget inputs now : ℤ) : ℚ) := rfl

/-- At the top of the replacement loop the accumulated §179 total is 0. -/
theorem scenarioStart_total179 (inputs : ScenarioInputs) (now : Date) :
    (scenarioStart inputs now).2.total_section_179 = 0 := by
  show (saleLoop inputs now (initResults now) inputs.assets_to_sell).total_section_179 = 0
  rw [saleLoop_total179]
  rfl

/-- Claim C2: replacement assets are processed in input order against one
running §179 budget — a SECTION_179 asset is granted exactly
min(depreciable basis, remaining budget, optional income limit) and the
counter is decremented by exactly that grant — and for nonnegative
initial budget, costs, business-use percentages and income limit, every
intermediate remaining budget is nonnegative and the aggregate
total_section_179 of a successful scenario never exceeds the initial
budget. -/
theorem claim2_section179_budget (inputs : ScenarioInputs) (now : Date)
    (hb : 0 ≤ s179Budget inputs now)
    (_hc : ∀ r ∈ inputs.replacement_assets, 0 ≤ r.cost ∧ 0 ≤ r.business_use_percent)
    (_hl : ∀ l, inputs.business_income_limit = some l → 0 ≤ l) :
    (∀ (remaining : ℚ) (res : ScenarioResults) (r : ReplacementAsset),
        r.method = "SECTION_179" →
        replacementStep inputs now (remaining, res) r = .ok
          (remaining - grant179 inputs.business_income_limit
              (r.cost * (r.business_use_percent / 100)) remaining,
            { res with
                total_section_179 := res.total_section_179
                  + grant179 inputs.business_income_limit
                      (r.cost * (r.business_use_percent / 100)) remaining,
                replacement_details := res.replacement_details
                  ++ [calculate_section_179 r.name r.cost r.business_use_percent
                      (r.in_service_month.getD now) remaining
                      inputs.business_income_limit] }))
    ∧ (∀ p q, inputs.replacement_assets = p ++ q →
        ∀ st', replacementLoop inputs now (scenarioStart inputs now) p = .ok st' →
          0 ≤ st'.1
            ∧ st'.2.total_section_179 ≤ ((s179Budget inputs now : ℤ) : ℚ))
    ∧ okScenario (calculate_scenario inputs now)
        (fun res => res.total_section_179 ≤ ((s179Budget inputs now : ℤ) : ℚ)) := by
  have hbq : (0 : ℚ) ≤ ((s179Budget inputs now : ℤ) : ℚ) := by exact_mod_cast hb
  have hloop : ∀ (p : List ReplacementAsset) (st' : ℚ × ScenarioResults),
      replacementLoop inputs now (scenarioStart inputs now) p = .ok st' →
      0 ≤ st'.1 ∧ st'.2.total_section_179 ≤ ((s179Budget inputs now : ℤ) : ℚ) := by
    intro p st' h
    have h2 : replacementLoop inputs now
        ((scenarioStart inputs now).1, (scenarioStart inputs now).2) p = .ok st' := by
      rw [Prod.mk.eta]; exact h
    rw [scenarioStart_fst] at h2
    have := replacementLoop_inv inputs now p _ _ st' h2 hbq
    rw [scenarioStart_total179, zero_add] at this
    exact ⟨this.2, by linarith [this.1, this.2]⟩
  refine ⟨?_, ?_, ?_⟩
  · intro remaining res r hm
    unfold replacementStep
    rw [if_neg (by rw [hm]; decide), if_pos hm]
    dsimp only
    rw [show (calculate_section_179 r.name r.cost r.business_use_percent
        (r.in_service_month.getD now) remaining
        inputs.business_income_limit).section_179_deduction
      = grant179 inputs.business_income_limit
          (r.cost * (r.business_use_percent / 100)) remaining
      from section179_deduction_eq r.name r.cost r.business_use_percent
        (r.in_service_month.getD now) remaining inputs.business_income_limit]
  · intro p q hpq st' h
    exact hloop p st' h
  · intro res hres
    unfold calculate_scenario at hres
    cases hrl : replacementLoop inputs now (scenarioStart inputs now)
        inputs.replacement_assets with
    | error e => rw [hrl] at hres; exact absurd hres (by simp)
    | ok st1 =>
      rw [hrl] at hres
      obtain ⟨rem, r3⟩ := st1
      have hb3 := hloop inputs.replacement_assets (rem, r3) hrl
      injection hres with hres
      rw [← hres]
      split_ifs <;> exact hb3.2

/-- Witness for C2: two full-business-use §179 assets of 1000000 each in
2025 (budget 1250000). -/
theorem claim2_witness :
    okScenario (calculate_scenario twoAsset179Inputs testNow)
      (fun res => res.total_section_179
        ≤ ((s179Budget twoAsset179Inputs testNow : ℤ) : ℚ)) := by
  refine (claim2_section179_budget twoAsset179Inputs testNow ?_ ?_ ?_).2.2
  · norm_num [s179Budget, twoAsset179Inputs,
      calculate_section_179_limit_with_phaseout, get_policy_for_year,
      policy2025, testNow]
  · intro r hr
    simp only [twoAsset179Inputs, List.mem_cons, List.not_mem_nil, or_false] at hr
    rcases hr with rfl | rfl <;> norm_num
  · intro l hl
    simp [twoAsset179Inputs] at hl

/-- Claim C5: `calculate_monthly_payment` returns principal over the
month count at a zero rate with a positive term, 0 at a zero rate and a
zero term, and for a positive rate and positive term the standard
annuity value P·r·(1+r)^n / ((1+r)^n − 1) with r the monthly rate and n
the month count; concretely the zero-rate example is exactly 1000 and
the (100000, 5.0, 5) example is within 0.01 of 1887.12. -/
theorem claim5_monthly_payment (loan_amount interest_rate : ℚ)
    (loan_term_years : ℤ) :
    (interest_rate = 0 → 0 < loan_term_years →
      calculate_monthly_payment loan_amount interest_rate loan_term_years
        = .ok (loan_amount / ((loan_term_years * 12 : ℤ) : ℚ)))
    ∧ (interest_rate = 0 → loan_term_years = 0 →
      calculate_monthly_payment loan_amount interest_rate loan_term_years = .ok 0)
    ∧ (0 < interest_rate → 0 < loan_term_years →
      calculate_monthly_payment loan_amount interest_rate loan_term_years
        = .ok (loan_amount * (interest_rate / 1200)
            * (1 + interest_rate / 1200) ^ (loan_term_years * 12)
            / ((1 + interest_rate / 1200) ^ (loan_term_years * 12) - 1)))
    ∧ calculate_monthly_payment 12000 0 1 = .ok 1000
    ∧ (∃ q, calculate_monthly_payment 100000 5 5 = .ok q
        ∧ |q - 188712/100| ≤ 1/100) := by
  have hzero : ∀ P : ℚ, ∀ y : ℤ, 0 < y →
      calculate_monthly_payment P 0 y = .ok (P / ((y * 12 : ℤ) : ℚ)) := by
    intro P y hy
    unfold calculate_monthly_payment
    dsimp only
    rw [if_pos (by norm_num : (0:ℚ)/1200 = 0),
      if_pos (by omega : (0:ℤ) < y * 12)]
  have hpos : ∀ (P rate : ℚ) (y : ℤ), 0 < rate → 0 < y →
      calculate_monthly_payment P rate y
        = .ok (P * (rate / 1200) * (1 + rate / 1200) ^ (y * 12)
            / ((1 + rate / 1200) ^ (y * 12) - 1)) := by
    intro P rate y hr hy
    unfold calculate_monthly_payment
    dsimp only
    have hrne : ¬ (rate / 1200 = 0) := ne_of_gt (by positivity)
    rw [if_neg hrne]
    have ha : (1:ℚ) < 1 + rate / 1200 := by
      have : (0:ℚ) < rate / 1200 := by positivity
      linarith
    have htn : ((y * 12).toNat : ℤ) = y * 12 := Int.toNat_of_nonneg (by omega)
    have hA1 : (1:ℚ) < (1 + rate / 1200) ^ (y * 12) := by
      rw [← htn, zpow_natCast]
      exact one_lt_pow₀ ha (by omega)
    have hAne : (1 + rate / 1200 : ℚ) ^ (y * 12) ≠ 0 := by
      apply zpow_ne_zero
      linarith
    have hinv : (1 + rate / 1200 : ℚ) ^ (-(y * 12))
        = ((1 + rate / 1200 : ℚ) ^ (y * 12))⁻¹ := zpow_neg _ _
    have hdpos : (0:ℚ) < 1 - ((1 + rate / 1200 : ℚ) ^ (y * 12))⁻¹ := by
      have h2 : ((1 + rate / 1200 : ℚ) ^ (y * 12))⁻¹ < 1 :=
        inv_lt_one_of_one_lt₀ hA1
      linarith
    rw [hinv, if_neg (ne_of_gt hdpos)]
    apply congrArg Except.ok
    have hkey : (1:ℚ) - ((1 + rate / 1200 : ℚ) ^ (y * 12))⁻¹
        = ((1 + rate / 1200 : ℚ) ^ (y * 12) - 1)
          / ((1 + rate / 1200 : ℚ) ^ (y * 12)) := by
      rw [eq_div_iff hAne, sub_mul, one_mul, inv_mul_cancel₀ hAne]
    rw [hkey, div_div_eq_mul_div]
  refine ⟨fun h0 ht => by rw [h0]; exact hzero loan_amount loan_term_years ht,
    ?_, fun hr hy => hpos loan_amount interest_rate loan_term_years hr hy, ?_, ?_⟩
  · intro h0 ht
    unfold calculate_monthly_payment
    dsimp only
    rw [h0, ht]
    norm_num
  · have h := hzero 12000 1 (by norm_num)
    rw [h]
    apply congrArg Except.ok
    norm_num
  · refine ⟨_, hpos 100000 5 5 (by norm_num) (by norm_num), ?_⟩
    have hz : ((1:ℚ) + 5/1200) ^ ((5:ℤ) * 12) = ((241:ℚ)/240) ^ (60:ℕ) := by
      rw [show ((5:ℤ) * 12) = (((60:ℕ)):ℤ) by norm_num, zpow_natCast,
        show ((1:ℚ) + 5/1200) = 241/240 by norm_num]
    rw [hz, abs_le]
    constructor <;> norm_num

/-- Witness for C5 at the specification examples with a zero rate. -/
theorem claim5_witness :
    calculate_monthly_payment 12000 0 1 = .ok 1000
    ∧ calculate_monthly_payment 500 0 0 = .ok 0 := by
  constructor
  · exact (claim5_monthly_payment 12000 0 1).2.2.2.1
  · exact (claim5_monthly_payment 500 0 0).2.1 rfl rfl

/-- Componentwise equality of dates. -/
theorem dateExt (a b : Date) (h1 : a.year = b.year) (h2 : a.month = b.month)
    (h3 : a.day = b.day) : a = b := by
  cases a
  cases b
  simp only at h1 h2 h3
  rw [h1, h2, h3]

/-- Year of a date shifted by one month. -/
theorem addMonths_one_year (d : Date) (hv : d.Valid) :
    (d.addMonths 1).year = (if d.month = 12 then d.year + 1 else d.year) := by
  obtain ⟨h1, h2, h3, h4⟩ := hv
  show (d.year * 12 + (d.month - 1) + 1) / 12
    = (if d.month = 12 then d.year + 1 else d.year)
  split_ifs with hm <;> omega

/-- Month of a date shifted by one month. -/
theorem addMonths_one_month (d : Date) (hv : d.Valid) :
    (d.addMonths 1).month = (if d.month = 12 then 1 else d.month + 1) := by
  obtain ⟨h1, h2, h3, h4⟩ := hv
  show (d.year * 12 + (d.month - 1) + 1) % 12 + 1
    = (if d.month = 12 then 1 else d.month + 1)
  split_ifs with hm <;> omega

/-- One month after a valid date is strictly later than the date. -/
theorem notLe_addMonths_one (d : Date) (hv : d.Valid) :
    ¬ Date.le (d.addMonths 1) d := by
  unfold Date.le
  rw [addMonths_one_year d hv, addMonths_one_month d hv]
  obtain ⟨h1, h2, h3, h4⟩ := hv
  split_ifs with hm <;> omega

/-- Adding one month and subtracting one month is the identity on a valid
date whose day-of-month also exists in the following month (this is the
`relativedelta` day clamp: for a day past the next month's end, such as
January 31, the round trip loses days). -/
theorem addMonths_roundTrip (d : Date) (hv : d.Valid)
    (hday : d.day ≤ daysInMonth (d.addMonths 1).year (d.addMonths 1).month) :
    (d.addMonths 1).addMonths (-1) = d := by
  have hday1 : (d.addMonths 1).day = d.day := by
    rw [show (d.addMonths 1).day
      = min d.day (daysInMonth (d.addMonths 1).year (d.addMonths 1).month) from rfl]
    exact min_eq_left hday
  have hY2 : ((d.addMonths 1).addMonths (-1)).year = d.year := by
    show ((d.addMonths 1).year * 12 + ((d.addMonths 1).month - 1) + (-1)) / 12
      = d.year
    rw [addMonths_one_year d hv, addMonths_one_month d hv]
    obtain ⟨h1, h2, h3, h4⟩ := hv
    split_ifs with hm <;> omega
  have hM2 : ((d.addMonths 1).addMonths (-1)).month = d.month := by
    show ((d.addMonths 1).year * 12 + ((d.addMonths 1).month - 1) + (-1)) % 12 + 1
      = d.month
    rw [addMonths_one_year d hv, addMonths_one_month d hv]
    obtain ⟨h1, h2, h3, h4⟩ := hv
    split_ifs with hm <;> omega
  have hD2 : ((d.addMonths 1).addMonths (-1)).day
      = min (d.addMonths 1).day
          (daysInMonth ((d.addMonths 1).addMonths (-1)).year
            ((d.addMonths 1).addMonths (-1)).month) := rfl
  apply dateExt _ _ hY2 hM2
  rw [hD2, hY2, hM2, hday1]
  exact min_eq_left hv.2.2.2

/-- Shape of the amortization loop output: empty, or headed by an entry
dated at the loop's current date. -/
theorem amortLoop_head (r mp : ℚ) (endD : Date) (fuel : ℕ) (bal : ℚ)
    (cur : Date) (k : ℤ) :
    amortLoop r mp endD fuel bal cur k = []
    ∨ ∃ e t, amortLoop r mp endD fuel bal cur k = e :: t
        ∧ e.payment_date = cur := by
  cases fuel with
  | zero => exact Or.inl rfl
  | succ n =>
    by_cases hg : 1/100 < bal ∧ Date.le cur endD
    · refine Or.inr ?_
      rw [show amortLoop r mp endD (n + 1) bal cur k
        = if 1/100 < bal ∧ Date.le cur endD then _ else [] from rfl, if_pos hg]
      exact ⟨_, _, rfl, rfl⟩
    · refine Or.inl ?_
      rw [show amortLoop r mp endD (n + 1) bal cur k
        = if 1/100 < bal ∧ Date.le cur endD then _ else [] from rfl, if_neg hg]

/-- Head fields of a nonempty amortization loop output: the entry is
dated at the current date and stores the rounded interest on the current
balance. -/
theorem amortLoop_head_fields (r mp : ℚ) (endD : Date) (n : ℕ) (bal : ℚ)
    (cur : Date) (k : ℤ) (hg : 1/100 < bal ∧ Date.le cur endD) :
    ∃ e t, amortLoop r mp endD (n + 1) bal cur k = e :: t
      ∧ e.payment_date = cur ∧ e.interest_payment = pyRound2 (bal * r) := by
  simp only [amortLoop]
  rw [if_pos hg]
  exact ⟨_, _, rfl, rfl, rfl⟩

/-- Rounding zero cents gives zero. -/
theorem pyRound2_zero : pyRound2 0 = 0 := by
  norm_num [pyRound2, roundHalfEven, Int.fract]

/-- Claim C6 (amended): for a loan whose parsed start date is valid and
whose day-of-month also exists in the following month (so the one-month
schedule shift round-trips, e.g. any day up to 28), paying off at the
start date returns the principal rounded to cents as the remaining
balance and zero interest and principal paid.  (For a start date like
January 31 the clamped shift makes the first row's month start three
days early and pro-rated interest is charged — see the counterexample.) -/
theorem claim6_payoff_at_start (loan : LoanInformationDTO) (d now : Date)
    (penalty_rate : ℚ) (hstart : loan.loan_start_date = some d) (hv : d.Valid)
    (hday : d.day ≤ daysInMonth (d.addMonths 1).year (d.addMonths 1).month) :
    (calculate_loan_payoff loan (some d) penalty_rate now).remaining_balance
        = pyRound2 loan.loan_amount
    ∧ (calculate_loan_payoff loan (some d) penalty_rate now).total_interest_paid = 0
    ∧ (calculate_loan_payoff loan (some d) penalty_rate now).total_principal_paid = 0 := by
  have hacc : payoffLoop d (generate_amortization_schedule loan now)
      (loan.loan_amount, 0, 0) = (loan.loan_amount, 0, 0) := by
    unfold generate_amortization_schedule
    rw [hstart]
    simp only [Option.getD_some]
    rcases amortLoop_head (loan.interest_rate / 1200) loan.monthly_payment
        (loan.loan_end_date.getD (d.addMonths (loan.loan_term_years * 12)))
        (monthSpan (d.addMonths 1)
          (loan.loan_end_date.getD (d.addMonths (loan.loan_term_years * 12)))).toNat
        loan.loan_amount (d.addMonths 1) 1 with h | h
    · rw [h]; rfl
    · obtain ⟨e, t, he, hdate⟩ := h
      rw [he]
      simp only [payoffLoop]
      rw [hdate, if_neg (notLe_addMonths_one d hv)]
      rw [addMonths_roundTrip d hv hday]
      rw [show dateDiffDays d d = 0 from sub_self _]
      rw [if_neg (by norm_num)]
  unfold calculate_loan_payoff
  simp only [Option.getD_some]
  rw [hacc]
  exact ⟨rfl, pyRound2_zero, pyRound2_zero⟩

/-- Witness for C6 at the repository's own test fixture: a 100000 loan
started 2024-01-01 paid off on its start date. -/
theorem claim6_witness :
    (calculate_loan_payoff samLoan (some ⟨2024, 1, 1⟩) 0 testNow).remaining_balance
        = 100000
    ∧ (calculate_loan_payoff samLoan (some ⟨2024, 1, 1⟩) 0 testNow).total_interest_paid = 0
    ∧ (calculate_loan_payoff samLoan (some ⟨2024, 1, 1⟩) 0 testNow).total_principal_paid = 0 := by
  have h := claim6_payoff_at_start samLoan ⟨2024, 1, 1⟩ testNow 0 rfl
    (by decide) (by decide)
  refine ⟨?_, h.2.1, h.2.2⟩
  rw [h.1]
  norm_num [samLoan, pyRound2, roundHalfEven, Int.fract]

/-- Counterexample for C6 as stated: the loan `cexLoan` has the
well-formed start date 2025-01-31, yet paying it off on that very start
date reports 1.20 of interest paid, not 0 — the one-month shift clamps
to 2025-02-28, shifting back yields 2025-01-28, and the loop charges
three days of pro-rated interest on the first row. -/
theorem claim6_counterexample :
    cexLoan.loan_start_date = some ⟨2025, 1, 31⟩
    ∧ (⟨2025, 1, 31⟩ : Date).Valid
    ∧ (calculate_loan_payoff cexLoan (some ⟨2025, 1, 31⟩) 0 testNow).total_interest_paid
        = 6/5
    ∧ ¬ (calculate_loan_payoff cexLoan (some ⟨2025, 1, 31⟩) 0 testNow).total_interest_paid
        = 0 := by
  have hg : generate_amortization_schedule cexLoan testNow
      = amortLoop (12 / 1200) 700 ⟨2026, 1, 31⟩ (11 + 1) 1200 ⟨2025, 2, 28⟩ 1 := by
    unfold generate_amortization_schedule
    simp only [cexLoan, Option.getD_some, Option.getD_none,
      show Date.addMonths ⟨2025, 1, 31⟩ ((1:ℤ) * 12) = ⟨2026, 1, 31⟩ from by decide,
      show Date.addMonths ⟨2025, 1, 31⟩ 1 = ⟨2025, 2, 28⟩ from by decide,
      show (monthSpan ⟨2025, 2, 28⟩ ⟨2026, 1, 31⟩).toNat = 11 + 1 from by decide]
  obtain ⟨e, t, he, hdate, hint⟩ := amortLoop_head_fields (12 / 1200) 700
    ⟨2026, 1, 31⟩ 11 1200 ⟨2025, 2, 28⟩ 1 ⟨by norm_num, by decide⟩
  have hpay : payoffLoop ⟨2025, 1, 31⟩
      (generate_amortization_schedule cexLoan testNow) (1200, 0, 0)
      = (1200, 0 + e.interest_payment * (((3:ℤ) : ℚ) / 30), 0) := by
    rw [hg, he]
    simp only [payoffLoop]
    rw [hdate, if_neg (by decide : ¬ Date.le (⟨2025, 2, 28⟩ : Date) ⟨2025, 1, 31⟩)]
    rw [show Date.addMonths ⟨2025, 2, 28⟩ (-1) = ⟨2025, 1, 28⟩ from by decide,
      show dateDiffDays ⟨2025, 1, 31⟩ ⟨2025, 1, 28⟩ = 3 from by decide]
    rw [if_pos (by norm_num)]
  have hval : (calculate_loan_payoff cexLoan (some ⟨2025, 1, 31⟩) 0 testNow).total_interest_paid
      = 6/5 := by
    unfold calculate_loan_payoff
    simp only [Option.getD_some]
    rw [show cexLoan.loan_amount = 1200 from rfl, hpay, hint]
    norm_num [pyRound2, roundHalfEven, Int.fract]
  exact ⟨rfl, by decide, hval, by rw [hval]; norm_num⟩

end AssetMgr
